import Mathlib

/-!
Verification of the SmartThings energy-fix accumulator
(`custom_components/smartthings_energy/sensor.py` and `config_flow.py`).

Modelling conventions (shallow embedding):
* Python scalars that occur in power-consumption reports are `PyVal`;
  a Python `bool` is an `int` subclass, so it is embedded as `PyVal.num`;
  any other object is `PyVal.obj tag truthy` (the tag models object
  identity, the flag its truthiness).
* Python numbers (`int`/`float`) are embedded as exact rationals `ℚ`.
* A report dict is an association list `Report`; `dict.get(k, d)` is
  `(r.lookup k).getD d`, `k in dict` is `(r.lookup k).isSome`,
  `not report` is `r.isEmpty`.
* `round(x, 3)` is Python 3 rounding: round half to even at the third
  decimal (`pyRound3`).
* Fallible lookups return `Option`; an exception caught by a bare
  `except` is the `Snapshot.throws` constructor.
-/

/-- Python scalar values as they occur in reports. `num` covers `int`,
`float` and `bool` (a Python `bool` is an `int`); `obj` is any other
object, with an identity tag and its truthiness. -/
inductive PyVal where
  | num (q : ℚ)
  | str (s : String)
  | pynone
  | obj (tag : Nat) (truthy : Bool)
  deriving DecidableEq

/-- Python truthiness (`if end:`): `0`, `""` and `None` are falsy. -/
def PyVal.isTruthy : PyVal → Bool
  | .num q => decide (q ≠ 0)
  | .str s => decide (s ≠ "")
  | .pynone => false
  | .obj _ t => t

/-- `isinstance(v, (int, float))` — true exactly for embedded numbers. -/
def PyVal.isNum : PyVal → Bool
  | .num _ => true
  | _ => false

/-- The numeric value of a `PyVal`, `0` for non-numbers. -/
def PyVal.toNum : PyVal → ℚ
  | .num q => q
  | _ => 0

/-- A Python dict of report fields, e.g. `{"end": "t1", "deltaEnergy": 100}`. -/
abbrev Report := List (String × PyVal)

/-- A Python object as the extractor may return it: a dict, or anything
else (the callers test `isinstance(report, dict)`). -/
inductive PyObj where
  | dict (entries : Report)
  | nonDict (v : PyVal)
  deriving DecidableEq

/-! ## Python 3 `round(x, 3)` on exact rationals -/

/-- Round half to even, Python 3's `round` on the integer grid. -/
def rndHalfEven (q : ℚ) : ℤ :=
  if q - (⌊q⌋ : ℚ) < 1 / 2 then ⌊q⌋
  else if (1 : ℚ) / 2 < q - (⌊q⌋ : ℚ) then ⌊q⌋ + 1
  else if ⌊q⌋ % 2 = 0 then ⌊q⌋ else ⌊q⌋ + 1

/-- Python's `round(q, 3)`. -/
def pyRound3 (q : ℚ) : ℚ := (rndHalfEven (q * 1000) : ℚ) / 1000

/-! ## sensor.py: module-level helpers -/

/-- `Capability.POWER_CONSUMPTION_REPORT` of pysmartthings. -/
def POWER_CONSUMPTION_REPORT : String := "powerConsumptionReport"

/-- `Attribute.POWER_CONSUMPTION` of pysmartthings. -/
def POWER_CONSUMPTION : String := "powerConsumption"

/-- A pysmartthings `Status` object: only its `value` field is read
(`None` or some Python object). -/
structure STAttribute where
  value : Option PyObj
  deriving DecidableEq

/-- `cap`: attribute name to `Status` (or to Python `None`), line 36. -/
abbrev AttrDict := List (String × Option STAttribute)

/-- `status`: capability name to attribute dict, line 35. -/
abbrev CapDict := List (String × AttrDict)

/-- A SmartThings `FullDevice` as `_get_power_consumption` reads it:
`throws` models any access along `device.status...` raising (the bare
`except Exception` catches it all); `ok` carries the component dict. -/
inductive Snapshot where
  | throws
  | ok (status : List (String × CapDict))

/-- sensor.py lines 31-41: extract the powerConsumption value from a
device snapshot; `None` on a missing key, a `None` attribute, a `None`
value, or any exception. -/
def _get_power_consumption : Snapshot → Option PyObj
  | .throws => none
  | .ok devStatus =>
      let status := (devStatus.lookup "main").getD []
      let cap := (status.lookup POWER_CONSUMPTION_REPORT).getD []
      match cap.lookup POWER_CONSUMPTION with
      | some (some attr) => attr.value
      | _ => none

/-- sensor.py lines 44-55: `energy` is missing-or-defaulted to `0`,
and the test is `(not isinstance(energy, (int, float)) or energy == 0)
and "deltaEnergy" in report`. -/
def _needs_delta_fix (report : Report) : Bool :=
  let energy := (report.lookup "energy").getD (PyVal.num 0)
  (!energy.isNum || energy.toNum == 0) && (report.lookup "deltaEnergy").isSome

/-- The eligibility predicate in the spec's words: `report.energy` is
either non-numeric or exactly zero (a report with no `energy` field
reports no numeric energy value), and the report contains a
`deltaEnergy` field regardless of its value. -/
def needsDeltaFixSpec (report : Report) : Bool :=
  (match report.lookup "energy" with
   | none => true
   | some v => !v.isNum || v.toNum == 0)
  && (report.lookup "deltaEnergy").isSome

/-! ## sensor.py: SmartThingsEnergyCoordinator -/

/-- The `runtime_data` of a SmartThings config entry, as the coordinator
reads it: `devices` is `none` when `getattr(runtime_data, "devices",
None)` yields `None` or anything that is not a dict (both fail the
`isinstance(devices, dict)` test on line 134). -/
structure RuntimeData where
  devices : Option (List (String × Snapshot))

/-- A SmartThings config entry: `runtime_data` is `none` when
`getattr(st_entry, "runtime_data", None)` yields `None` (line 129). -/
structure StEntry where
  runtime_data : Option RuntimeData

/-- sensor.py lines 127-142, `SmartThingsEnergyCoordinator._async_update_data`:
publish the extracted report, or the empty dict `{}` on any missing piece. -/
def _async_update_data (entry : StEntry) (device_id : String) : Report :=
  match entry.runtime_data with
  | none => []
  | some rd =>
      match rd.devices with
      | none => []
      | some devices =>
          match devices.lookup device_id with
          | none => []
          | some full_device =>
              match _get_power_consumption full_device with
              | some (.dict report) => report
              | _ => []

/-! ## sensor.py: AccumulatingEnergySensor -/

/-- The sensor's mutable accumulation state (lines 166-167).
`last_report_end` starts as Python `None` (`PyVal.pynone`) and is later
assigned the report's `end` value, so it is stored as a `PyVal`. -/
structure SensorState where
  accumulated_wh : ℚ
  last_report_end : PyVal
  deriving DecidableEq

/-- `__init__`: `accumulated_wh = 0.0`, `last_report_end = None`. -/
def initSensor : SensorState := { accumulated_wh := 0, last_report_end := PyVal.pynone }

/-- Line 178-180: `report.get("deltaEnergy", 0)`, coerced to `0` when
not an `int`/`float`. -/
def reportDelta (report : Report) : ℚ :=
  let delta0 := (report.lookup "deltaEnergy").getD (PyVal.num 0)
  if delta0.isNum then delta0.toNum else 0

/-- Line 183: `report.get("end")`; a missing key yields Python `None`. -/
def reportEnd (report : Report) : PyVal :=
  (report.lookup "end").getD PyVal.pynone

/-- Line 188's published value once a report dict was seen:
`round(acc / 1000, 3) if acc > 0 else 0.0`. -/
def publish (acc : ℚ) : ℚ :=
  if acc > 0 then pyRound3 (acc / 1000) else 0

/-- sensor.py lines 169-188, `AccumulatingEnergySensor.native_value`:
one observation of the coordinator's current data. The input is `none`
when `coordinator.data` is not a dict, `some report` when it is the
dict `report`. Returns the state after the observation and the value
the property returns (`none` is Python `None`, i.e. unknown). -/
def native_value (st : SensorState) (data : Option Report) : SensorState × Option ℚ :=
  match data with
  | none =>
      (st, if st.accumulated_wh > 0 then some (pyRound3 (st.accumulated_wh / 1000)) else none)
  | some report =>
      if report.isEmpty then
        (st, if st.accumulated_wh > 0 then some (pyRound3 (st.accumulated_wh / 1000)) else none)
      else
        let delta_energy := reportDelta report
        let endTok := reportEnd report
        if endTok.isTruthy = true ∧ endTok ≠ st.last_report_end ∧ 0 < delta_energy then
          (⟨st.accumulated_wh + delta_energy, endTok⟩,
            some (publish (st.accumulated_wh + delta_energy)))
        else
          (st, some (publish st.accumulated_wh))

/-- The sensor's state after a sequence of observations. -/
def runState : SensorState → List (Option Report) → SensorState
  | st, [] => st
  | st, d :: ds => runState (native_value st d).1 ds

/-- The published values along a sequence of observations. -/
def runOutputs : SensorState → List (Option Report) → List (Option ℚ)
  | _, [] => []
  | st, d :: ds => (native_value st d).2 :: runOutputs (native_value st d).1 ds

/-! ## config_flow.py -/

/-- `const.DOMAIN`. (const.py is not part of the sources; only the
token's identity matters to the flow.) -/
def DOMAIN : String := "smartthings_energy"

/-- A config-flow outcome as Home Assistant's flow manager records it. -/
inductive FlowResult where
  | showForm (step_id : String)
  | abort (reason : String)
  | createEntry (title : String)
  deriving DecidableEq

/-- config_flow.py lines 13-24, `async_step_user`. Modelled from the
spec: the host's `_abort_if_unique_id_configured` helper (not part of
the sources) aborts the flow when a config entry with the unique id set
by `async_set_unique_id` already exists; `configured_unique_ids` is the
set of unique ids of existing registrations. -/
def async_step_user (configured_unique_ids : List String)
    (user_input : Option Report) : FlowResult :=
  match user_input with
  | none => FlowResult.showForm "user"
  | some _ =>
      if DOMAIN ∈ configured_unique_ids then FlowResult.abort "already_configured"
      else FlowResult.createEntry "SmartThings Energy Fix"

/-! ## Rounding lemmas -/

theorem floor_le_rndHalfEven (q : ℚ) : ⌊q⌋ ≤ rndHalfEven q := by
  unfold rndHalfEven
  split_ifs <;> omega

theorem rndHalfEven_le_floor_add_one (q : ℚ) : rndHalfEven q ≤ ⌊q⌋ + 1 := by
  unfold rndHalfEven
  split_ifs <;> omega

theorem rndHalfEven_mono {a b : ℚ} (h : a ≤ b) : rndHalfEven a ≤ rndHalfEven b := by
  rcases eq_or_lt_of_le (Int.floor_le_floor h) with hf | hf
  · unfold rndHalfEven
    rw [← hf]
    split_ifs <;> first | omega | linarith
  · calc rndHalfEven a ≤ ⌊a⌋ + 1 := rndHalfEven_le_floor_add_one a
      _ ≤ ⌊b⌋ := by omega
      _ ≤ rndHalfEven b := floor_le_rndHalfEven b

theorem pyRound3_mono {a b : ℚ} (h : a ≤ b) : pyRound3 a ≤ pyRound3 b := by
  unfold pyRound3
  have h1 : a * 1000 ≤ b * 1000 := by linarith
  have h2 : ((rndHalfEven (a * 1000) : ℤ) : ℚ) ≤ ((rndHalfEven (b * 1000) : ℤ) : ℚ) := by
    exact_mod_cast rndHalfEven_mono h1
  linarith

theorem pyRound3_zero : pyRound3 0 = 0 := by
  norm_num [pyRound3, rndHalfEven]

theorem publish_mono {a b : ℚ} (h : a ≤ b) : publish a ≤ publish b := by
  unfold publish
  split_ifs with ha hb
  · exact pyRound3_mono (by linarith)
  · exact absurd (lt_of_lt_of_le ha h) hb
  · have h0 : pyRound3 0 ≤ pyRound3 (b / 1000) := pyRound3_mono (by positivity)
    rw [pyRound3_zero] at h0
    exact h0
  · exact le_refl 0

/-! ## Structural lemmas about one observation -/

/-- `v` truthy means `v` is not Python `None`. -/
theorem PyVal.ne_pynone_of_isTruthy {v : PyVal} (h : v.isTruthy = true) : v ≠ PyVal.pynone := by
  cases v <;> simp_all [PyVal.isTruthy]

/-- One observation either leaves the state unchanged, or fires the
accumulation guard of lines 184-186. -/
theorem native_value_state_cases (st : SensorState) (d : Option Report) :
    (native_value st d).1 = st ∨
      ∃ r, d = some r ∧ r.isEmpty = false ∧ (reportEnd r).isTruthy = true ∧
        reportEnd r ≠ st.last_report_end ∧ 0 < reportDelta r ∧
        (native_value st d).1 = ⟨st.accumulated_wh + reportDelta r, reportEnd r⟩ := by
  cases d with
  | none => exact Or.inl rfl
  | some r =>
    by_cases hre : r.isEmpty
    · exact Or.inl (by simp [native_value, hre])
    · by_cases hc : (reportEnd r).isTruthy = true ∧ reportEnd r ≠ st.last_report_end ∧
          0 < reportDelta r
      · refine Or.inr ⟨r, rfl, by simpa using hre, hc.1, hc.2.1, hc.2.2, ?_⟩
        simp [native_value, hre, hc]
      · exact Or.inl (by simp [native_value, hre, hc])

/-- The accumulated total never decreases across one observation. -/
theorem accumulated_mono (st : SensorState) (d : Option Report) :
    st.accumulated_wh ≤ (native_value st d).1.accumulated_wh := by
  rcases native_value_state_cases st d with h | ⟨r, _, _, _, _, hd, h⟩
  · rw [h]
  · rw [h]
    simpa using le_of_lt (by linarith)

/-- The value an observation returns is `None`, or `publish` of the
accumulated total after the observation. -/
theorem native_value_out_cases (st : SensorState) (d : Option Report) :
    (native_value st d).2 = none ∨
      (native_value st d).2 = some (publish ((native_value st d).1.accumulated_wh)) := by
  cases d with
  | none =>
    by_cases h : st.accumulated_wh > 0
    · exact Or.inr (by simp [native_value, h, publish])
    · exact Or.inl (by simp [native_value, h])
  | some r =>
    by_cases hre : r.isEmpty
    · by_cases h : st.accumulated_wh > 0
      · exact Or.inr (by simp [native_value, hre, h, publish])
      · exact Or.inl (by simp [native_value, hre, h])
    · by_cases hc : (reportEnd r).isTruthy = true ∧ reportEnd r ≠ st.last_report_end ∧
          0 < reportDelta r
      · exact Or.inr (by simp [native_value, hre, hc])
      · exact Or.inr (by simp [native_value, hre, hc])

/-- A truthy `end` token can only come from a present `end` key. -/
theorem lookup_end_isSome_of_truthy {r : Report}
    (h : (reportEnd r).isTruthy = true) : (r.lookup "end").isSome = true := by
  unfold reportEnd at h
  cases hl : r.lookup "end" with
  | none => rw [hl] at h; simp [PyVal.isTruthy] at h
  | some v => rfl

/-- On a non-empty report dict the returned value is always `publish`
of the post-observation total (line 188). -/
theorem native_value_out_nonempty {r : Report} (hre : r.isEmpty = false)
    (st : SensorState) :
    (native_value st (some r)).2 =
      some (publish ((native_value st (some r)).1.accumulated_wh)) := by
  by_cases hc : (reportEnd r).isTruthy = true ∧ reportEnd r ≠ st.last_report_end ∧
      0 < reportDelta r
  · simp [native_value, hre, hc]
  · simp [native_value, hre, hc]

/-- An empty or non-dict coordinator payload is a pure fallback read:
no state change, previous total or unknown (lines 172-176). -/
theorem empty_obs_noop {d : Option Report} (hd : d = none ∨ d = some [])
    (st : SensorState) :
    native_value st d =
      (st, if st.accumulated_wh > 0 then some (pyRound3 (st.accumulated_wh / 1000))
           else none) := by
  rcases hd with rfl | rfl
  · rfl
  · rfl

/-- The state invariant the sensor maintains: the total is non-negative
and is positive exactly when a dedup token has been recorded. -/
def SensorInv (st : SensorState) : Prop :=
  0 ≤ st.accumulated_wh ∧
    (0 < st.accumulated_wh ↔ st.last_report_end ≠ PyVal.pynone)

/-- One observation preserves `SensorInv`. -/
theorem SensorInv_step {st : SensorState} (h : SensorInv st) (d : Option Report) :
    SensorInv (native_value st d).1 := by
  rcases native_value_state_cases st d with he | ⟨r, _, _, ht, _, hd, he⟩
  · rw [he]; exact h
  · rw [he]
    refine ⟨by simpa using by linarith [h.1], ?_⟩
    exact iff_of_true (by simpa using by linarith [h.1])
      (by simpa using PyVal.ne_pynone_of_isTruthy ht)

/-! ## The claims -/

/-- C1: for every sequence of observations starting from the fresh
sensor, whenever two successive observations both yield a numeric
value, the later published kWh value is greater than or equal to the
earlier one. -/
theorem monotone_published_kwh (ds : List (Option Report)) :
    List.Chain' (fun a b => ∀ x y, a = some x → b = some y → x ≤ y)
      (runOutputs initSensor ds) := by
  suffices h : ∀ st, List.Chain' (fun a b => ∀ x y, a = some x → b = some y → x ≤ y)
      (runOutputs st ds) from h initSensor
  induction ds with
  | nil => intro st; simp [runOutputs]
  | cons d ds ih =>
    intro st
    simp only [runOutputs]
    refine List.chain'_cons'.mpr ⟨?_, ih (native_value st d).1⟩
    intro b hb x y hx hy
    cases ds with
    | nil => simp [runOutputs] at hb
    | cons d2 ds2 =>
      simp only [runOutputs, List.head?_cons, Option.mem_def, Option.some.injEq] at hb
      subst hb
      rcases native_value_out_cases st d with h1 | h1
      · rw [h1] at hx; cases hx
      · rw [h1] at hx
        injection hx with hx
        rcases native_value_out_cases (native_value st d).1 d2 with h2 | h2
        · rw [h2] at hy; cases hy
        · rw [h2] at hy
          injection hy with hy
          rw [← hx, ← hy]
          exact publish_mono (accumulated_mono (native_value st d).1 d2)

/-- C2: dedup idempotence — observing the same report twice in a row
leaves the state after the second observation equal to the state after
the first (in particular the accumulated total is unchanged). -/
theorem dedup_idempotent (st : SensorState) (r : Report) :
    (native_value (native_value st (some r)).1 (some r)).1 =
      (native_value st (some r)).1 := by
  rcases native_value_state_cases st (some r) with h | ⟨r2, hr2, hre, ht, hne, hd, h⟩
  · rw [h]; exact h
  · injection hr2 with hr2e
    subst hr2e
    rw [h]
    have hcond : ¬((reportEnd r).isTruthy = true ∧
        reportEnd r ≠ (⟨st.accumulated_wh + reportDelta r, reportEnd r⟩ :
          SensorState).last_report_end ∧ 0 < reportDelta r) := by
      rintro ⟨-, hx, -⟩
      exact hx rfl
    simp [native_value, hre, hcond]

/-- C3: the state pair is mutated only when the report's `end` key is
present, its value differs from `last_report_end`, and the coerced
`deltaEnergy` is strictly positive; in every other case both fields
are unchanged, and a mutation adds the delta and records the `end`
token. -/
theorem state_mutation_frame (st : SensorState) (d : Option Report) :
    ((native_value st d).1 ≠ st →
      ∃ r, d = some r ∧ (r.lookup "end").isSome = true ∧
        reportEnd r ≠ st.last_report_end ∧ 0 < reportDelta r ∧
        (native_value st d).1 =
          ⟨st.accumulated_wh + reportDelta r, reportEnd r⟩) ∧
    (∀ r, d = some r →
      ¬((r.lookup "end").isSome = true ∧ reportEnd r ≠ st.last_report_end ∧
          0 < reportDelta r) →
      (native_value st d).1 = st) ∧
    (d = none → (native_value st d).1 = st) := by
  refine ⟨?_, ?_, ?_⟩
  · intro hne
    rcases native_value_state_cases st d with h | ⟨r, hr, hre, ht, hne2, hd, h⟩
    · exact absurd h hne
    · exact ⟨r, hr, lookup_end_isSome_of_truthy ht, hne2, hd, h⟩
  · rintro r rfl hn
    by_cases hre : r.isEmpty
    · simp [native_value, hre]
    · have hcond : ¬((reportEnd r).isTruthy = true ∧
          reportEnd r ≠ st.last_report_end ∧ 0 < reportDelta r) := by
        rintro ⟨h1, h2, h3⟩
        exact hn ⟨lookup_end_isSome_of_truthy h1, h2, h3⟩
      simp [native_value, hre, hcond]
  · rintro rfl; rfl

/-- C4: `_needs_delta_fix` agrees with the spec's eligibility predicate
(energy non-numeric or exactly zero, and a `deltaEnergy` key present),
and decides the three reference examples as the spec states. -/
theorem needs_delta_fix_correct :
    (∀ r : Report, _needs_delta_fix r = needsDeltaFixSpec r) ∧
    _needs_delta_fix [("energy", PyVal.num 0), ("deltaEnergy", PyVal.num 5),
      ("start", PyVal.str "a"), ("end", PyVal.str "b")] = true ∧
    _needs_delta_fix [("energy", PyVal.num 120), ("deltaEnergy", PyVal.num 5),
      ("end", PyVal.str "b")] = false ∧
    _needs_delta_fix [("energy", PyVal.num 0)] = false := by
  refine ⟨?_, by decide, by decide, by decide⟩
  intro r
  unfold _needs_delta_fix needsDeltaFixSpec
  cases h : r.lookup "energy" <;> simp [h, PyVal.isNum, PyVal.toNum]

/-- C5: unknown versus zero — an empty or absent payload while the
total is zero reads as unknown (`None`); a non-empty report reads as
explicit `0.0` while the total is zero and as `round(total / 1000, 3)`
once it is positive; and a fresh sensor fed only empty/absent payloads
reads unknown forever. -/
theorem unknown_vs_zero (st : SensorState) (d : Option Report) :
    ((d = none ∨ d = some []) → st.accumulated_wh = 0 →
      (native_value st d).2 = none) ∧
    (∀ r, d = some r → r ≠ [] →
      ((native_value st d).1.accumulated_wh = 0 → (native_value st d).2 = some 0) ∧
      (0 < (native_value st d).1.accumulated_wh →
        (native_value st d).2 =
          some (pyRound3 ((native_value st d).1.accumulated_wh / 1000)))) ∧
    (∀ ds : List (Option Report), (∀ x ∈ ds, x = none ∨ x = some []) →
      ∀ o ∈ runOutputs initSensor ds, o = none) := by
  refine ⟨?_, ?_, ?_⟩
  · intro hd hacc
    rw [empty_obs_noop hd st]
    simp [hacc]
  · rintro r rfl hne
    have hre : r.isEmpty = false := by simpa using hne
    rw [native_value_out_nonempty hre st]
    constructor
    · intro h0; rw [h0]; simp [publish]
    · intro hpos
      rw [publish, if_pos hpos]
  · intro ds
    induction ds with
    | nil => intro _ o ho; simp [runOutputs] at ho
    | cons d ds ih =>
      intro hall o ho
      have hd := hall d (List.mem_cons_self d ds)
      have h1 : native_value initSensor d = (initSensor, none) := by
        rw [empty_obs_noop hd initSensor]
        simp [initSensor]
      simp only [runOutputs, h1, List.mem_cons] at ho
      rcases ho with rfl | ho
      · rfl
      · exact ih (fun x hx => hall x (List.mem_cons_of_mem d hx)) o ho

/-- C6: fallback after data loss — with a positive accumulated total,
an empty or absent payload leaves the state unchanged and still
publishes the previous total in kWh rather than unknown. -/
theorem fallback_after_data_loss (st : SensorState) (d : Option Report)
    (hacc : 0 < st.accumulated_wh) (hd : d = none ∨ d = some []) :
    native_value st d = (st, some (pyRound3 (st.accumulated_wh / 1000))) := by
  rw [empty_obs_noop hd st]
  simp [hacc]

/-- C6's scenario at 150 Wh: the published value stays 0.15 kWh. -/
theorem fallback_after_data_loss_witness :
    native_value ⟨150, PyVal.str "t2"⟩ none =
      (⟨150, PyVal.str "t2"⟩, some (3 / 20)) := by
  rw [fallback_after_data_loss ⟨150, PyVal.str "t2"⟩ none (by norm_num) (Or.inl rfl)]
  norm_num [pyRound3, rndHalfEven]

/-- C7: soft degradation — the extractor returns `None` on an exception
or any missing structure (a `some` result certifies the whole lookup
chain), and the coordinator publishes the empty report whenever the
runtime data is missing, the device map is not a dict, the device is
absent, or extraction yields no dict. -/
theorem soft_degradation_no_raise :
    (_get_power_consumption Snapshot.throws = none) ∧
    (∀ (snap : Snapshot) (v : PyObj), _get_power_consumption snap = some v →
      ∃ comps caps attrs attr, snap = Snapshot.ok comps ∧
        comps.lookup "main" = some caps ∧
        caps.lookup POWER_CONSUMPTION_REPORT = some attrs ∧
        attrs.lookup POWER_CONSUMPTION = some (some attr) ∧
        attr.value = some v) ∧
    (∀ (e : StEntry) (did : String), e.runtime_data = none →
      _async_update_data e did = []) ∧
    (∀ (e : StEntry) (rd : RuntimeData) (did : String),
      e.runtime_data = some rd → rd.devices = none →
      _async_update_data e did = []) ∧
    (∀ (e : StEntry) (rd : RuntimeData) (devs : List (String × Snapshot)) (did : String),
      e.runtime_data = some rd → rd.devices = some devs → devs.lookup did = none →
      _async_update_data e did = []) ∧
    (∀ (e : StEntry) (rd : RuntimeData) (devs : List (String × Snapshot))
        (did : String) (dev : Snapshot),
      e.runtime_data = some rd → rd.devices = some devs → devs.lookup did = some dev →
      (∀ r : Report, _get_power_consumption dev ≠ some (PyObj.dict r)) →
      _async_update_data e did = []) := by
  refine ⟨rfl, ?_, ?_, ?_, ?_, ?_⟩
  · intro snap v h
    cases snap with
    | throws => cases h
    | ok comps =>
      simp only [_get_power_consumption] at h
      cases h1 : comps.lookup "main" with
      | none => rw [h1] at h; simp at h
      | some caps =>
        rw [h1, Option.getD_some] at h
        cases h2 : caps.lookup POWER_CONSUMPTION_REPORT with
        | none => rw [h2] at h; simp at h
        | some attrs =>
          rw [h2, Option.getD_some] at h
          cases h3 : attrs.lookup POWER_CONSUMPTION with
          | none => rw [h3] at h; simp at h
          | some oattr =>
            rw [h3] at h
            cases oattr with
            | none => simp at h
            | some attr => exact ⟨comps, caps, attrs, attr, rfl, h1, h2, h3, by simpa using h⟩
  · intro e did h
    simp [_async_update_data, h]
  · intro e rd did h1 h2
    simp [_async_update_data, h1, h2]
  · intro e rd devs did h1 h2 h3
    simp [_async_update_data, h1, h2, h3]
  · intro e rd devs did dev h1 h2 h3 h4
    cases hg : _get_power_consumption dev with
    | none => simp [_async_update_data, h1, h2, h3, hg]
    | some o =>
      cases o with
      | dict r => exact absurd hg (h4 r)
      | nonDict v => simp [_async_update_data, h1, h2, h3, hg]

/-- C8: single-instance setup guard — a submitted user step creates the
config entry exactly when no registration with the integration's unique
id exists, and an existing registration makes it abort; with no input
the step shows the form. -/
theorem single_instance_guard (ids : List String) (inp : Report) :
    (async_step_user ids (some inp) = FlowResult.createEntry "SmartThings Energy Fix" ↔
      DOMAIN ∉ ids) ∧
    (DOMAIN ∈ ids →
      async_step_user ids (some inp) = FlowResult.abort "already_configured") ∧
    (async_step_user ids none = FlowResult.showForm "user") := by
  unfold async_step_user
  by_cases h : DOMAIN ∈ ids <;> simp [h]

/-- C9: reachable-state invariant — along any run from the fresh
sensor, the accumulated total is non-negative and is positive exactly
when the dedup token `last_report_end` has been set. -/
theorem accumulator_state_invariant (ds : List (Option Report)) :
    0 ≤ (runState initSensor ds).accumulated_wh ∧
      (0 < (runState initSensor ds).accumulated_wh ↔
        (runState initSensor ds).last_report_end ≠ PyVal.pynone) := by
  suffices h : ∀ st, SensorInv st → SensorInv (runState st ds) from
    h initSensor ⟨le_refl 0, by simp [initSensor]⟩
  induction ds with
  | nil => intro st h; exact h
  | cons d ds ih => intro st h; exact ih (native_value st d).1 (SensorInv_step h d)

/-- C10: a non-empty report whose `end` token is absent or falsy never
accumulates, whatever its `deltaEnergy`: the observation leaves the
state unchanged and returns the current total (explicit `0.0` when
nothing was accumulated yet). -/
theorem falsy_end_no_accumulation (st : SensorState) (r : Report)
    (hne : r ≠ [])
    (hend : r.lookup "end" = none ∨ ∃ v, r.lookup "end" = some v ∧ v.isTruthy = false) :
    native_value st (some r) =
      (st, if st.accumulated_wh > 0 then some (pyRound3 (st.accumulated_wh / 1000))
           else some 0) := by
  have hre : r.isEmpty = false := by simpa using hne
  have htr : (reportEnd r).isTruthy = false := by
    rcases hend with h | ⟨v, hv, hvf⟩
    · simp [reportEnd, h, PyVal.isTruthy]
    · simp [reportEnd, hv, hvf]
  have hcond : ¬((reportEnd r).isTruthy = true ∧ reportEnd r ≠ st.last_report_end ∧
      0 < reportDelta r) := by
    rintro ⟨h1, -, -⟩
    rw [htr] at h1
    exact Bool.false_ne_true h1
  have hnv : native_value st (some r) = (st, some (publish st.accumulated_wh)) := by
    simp [native_value, hre, hcond]
  rw [hnv, publish]
  split_ifs <;> rfl

/-- C10's edge case: `end = ""` with a positive delta on the fresh
sensor is a no-op that reads `0.0`. -/
theorem falsy_end_no_accumulation_witness :
    native_value initSensor
        (some [("end", PyVal.str ""), ("deltaEnergy", PyVal.num 5)]) =
      (initSensor, some 0) := by
  rw [falsy_end_no_accumulation initSensor
    [("end", PyVal.str ""), ("deltaEnergy", PyVal.num 5)] (by decide)
    (Or.inr ⟨PyVal.str "", by decide, by decide⟩)]
  simp [initSensor]
